import Mathlib

/-!
Verification development for the E_Commerce_API repository (`src/app.py`):
a Flask CRUD REST API over Users and Products backed by SQLite through
SQLAlchemy, with marshmallow schemas for validation.

Shallow embedding choices:
* The relational store is a `DB` record holding the `users` and `products`
  tables as lists of rows.  No id counter is modelled: the primary keys
  are plain SQLite rowid-alias columns (`mapped_column(Integer,
  primary_key=True)`, no AUTOINCREMENT, so a deleted maximum id can be
  re-issued), and — decisively — no handler of this program ever reaches
  an INSERT (see next point), so the API itself never assigns an id.
  Stored rows carry whatever ids the database file already holds.
* Both schemas set `load_instance = True` (src/app.py lines 71 and 91),
  so a successful `schema.load` returns a model instance, not a dict.
  The handlers nevertheless consume the result as a mapping:
  `user_data['name']` (line 131) raises `TypeError: 'User' object is not
  subscriptable`, and `'name' in user_data` (line 157) raises
  `TypeError: argument of type 'User' is not iterable`; likewise
  `product_data['name']` (line 204) and `'name' in product_data`
  (line 229).  Neither `except ValidationError` nor
  `except IntegrityError` catches a `TypeError`, so Flask answers 500 on
  every payload that passes validation, with the store untouched.  The
  embedding models a successful load as the validated instance's fields
  and the handler's first mapping-style access as that uncaught
  `TypeError` (a 500 response).  Consequently the 201 and
  IntegrityError/409 code of `create_user`, the 200 code of
  `update_user`, and their product counterparts are dynamically dead.
* A failed validation still answers 400: `ValidationError` is raised
  while the fields are checked, before the instance is built.
* Prices (Python `float`) are modelled as rationals `ℚ`; the validator
  `validate.Range(min=0.01)` becomes `mkRat 1 100 ≤ price`.
* The GET and DELETE handlers never call `schema.load`, and the PUT and
  GET/DELETE not-found branches precede it, so those paths are modelled
  exactly as written.
* Each route handler becomes a function `DB → ... → Response × DB`.
-/

namespace ECom

/-- A row of the `users` table (src/app.py, class `User`). -/
structure User where
  id : Nat
  name : String
  address : String
  email : String
deriving Repr, DecidableEq

/-- A row of the `products` table (src/app.py, class `Product`). -/
structure Product where
  id : Nat
  name : String
  price : ℚ
deriving Repr, DecidableEq

/-- The relational store: the `users` and `products` tables. -/
structure DB where
  users : List User
  products : List Product
deriving Repr, DecidableEq

/-- The freshly created, empty database (`db.create_all()` on a new
file). -/
def DB.empty : DB := ⟨[], []⟩

/-- A JSON (or, for 500, HTML) response body: a serialized entity, a list
of entities, a message — also standing for Flask's "Internal Server
Error" page on an uncaught exception — or a marshmallow field→message
error map. -/
inductive Body where
  | user (u : User)
  | product (p : Product)
  | users (l : List User)
  | products (l : List Product)
  | message (m : String)
  | errors (e : List (String × String))
deriving Repr, DecidableEq

/-- An HTTP response: status code and body. -/
structure Response where
  status : Nat
  body : Body
deriving Repr, DecidableEq

/-- A POST/PUT request body for the user resource: each known field is
present or absent. -/
structure UserPayload where
  name : Option String
  address : Option String
  email : Option String
deriving Repr, DecidableEq

/-- A POST/PUT request body for the product resource. -/
structure ProductPayload where
  name : Option String
  price : Option ℚ
deriving Repr, DecidableEq

/-- The validated field values of the transient `User` instance built by
marshmallow's `make_instance` on a successful full load. -/
structure UserFields where
  name : String
  address : String
  email : String
deriving Repr, DecidableEq

/-- The validated field values of the transient `Product` instance built
by `make_instance` on a successful full load. -/
structure ProductFields where
  name : String
  price : ℚ
deriving Repr, DecidableEq

/-! ### Validation layer (marshmallow schemas) -/

/-- Split a character list at every occurrence of the separator. -/
def splitOnChar (c : Char) : List Char → List (List Char)
  | [] => [[]]
  | x :: xs =>
    match splitOnChar c xs with
    | [] => [[x]]
    | y :: ys => if x = c then [] :: y :: ys else (x :: y) :: ys

/-- The check `validate.Length(min=1, max=80)` on `UserSchema.name`. -/
def userNameOk (s : String) : Bool :=
  decide (1 ≤ s.length) && decide (s.length ≤ 80)

/-- The check `validate.Length(min=1, max=255)` on `UserSchema.address`. -/
def userAddressOk (s : String) : Bool :=
  decide (1 ≤ s.length) && decide (s.length ≤ 255)

/-- The check `validate.Length(min=1, max=120)` on `ProductSchema.name`. -/
def productNameOk (s : String) : Bool :=
  decide (1 ≤ s.length) && decide (s.length ≤ 120)

/-- The rational 0.01, the lower bound of `validate.Range(min=0.01)`. -/
def pennyRat : ℚ := mkRat 1 100

/-- The check `validate.Range(min=0.01)` on `ProductSchema.price`. -/
def priceOk (x : ℚ) : Bool := decide (pennyRat ≤ x)

/-- Modelled from marshmallow's `fields.Email` format check, simplified to
its structural core: exactly one `@`, a nonempty local part, and a
dot-separated domain of at least two nonempty labels. Every claim below
depends only on the handlers using this one check, not on its exact
regular expression. -/
def emailOk (s : String) : Bool :=
  match splitOnChar '@' s.data with
  | [loc, dom] =>
    let parts := splitOnChar '.' dom
    decide (loc ≠ []) && decide (2 ≤ parts.length) && parts.all fun q => decide (q ≠ [])
  | _ => false

/-- marshmallow's message for a missing required field. -/
def requiredMsg : String := "Missing data for required field."

/-- Field→message error map for a full (create) load of `UserSchema`. -/
def userCreateErrors (p : UserPayload) : List (String × String) :=
  (match p.name with
   | none => [("name", requiredMsg)]
   | some n => if userNameOk n then [] else [("name", "Length must be between 1 and 80.")]) ++
  (match p.address with
   | none => [("address", requiredMsg)]
   | some a => if userAddressOk a then [] else [("address", "Length must be between 1 and 255.")]) ++
  (match p.email with
   | none => [("email", requiredMsg)]
   | some e => if emailOk e then [] else [("email", "Not a valid email address.")])

/-- Full load `user_schema.load(request.json)`: all three fields are
required and validated; success stands for the transient `User` instance
`make_instance` builds from the validated fields (`load_instance = True`),
failure for the raised `ValidationError`. -/
def userSchemaLoad (p : UserPayload) : Except (List (String × String)) UserFields :=
  match p.name, p.address, p.email with
  | some n, some a, some e =>
    if userNameOk n && userAddressOk a && emailOk e then .ok ⟨n, a, e⟩
    else .error (userCreateErrors p)
  | _, _, _ => .error (userCreateErrors p)

/-- Field→message error map for a `load(..., partial=True)` of
`UserSchema`: absent fields contribute no error. -/
def userUpdateErrors (p : UserPayload) : List (String × String) :=
  (match p.name with
   | none => []
   | some n => if userNameOk n then [] else [("name", "Length must be between 1 and 80.")]) ++
  (match p.address with
   | none => []
   | some a => if userAddressOk a then [] else [("address", "Length must be between 1 and 255.")]) ++
  (match p.email with
   | none => []
   | some e => if emailOk e then [] else [("email", "Not a valid email address.")])

/-- Subset load `user_schema.load(request.json, partial=True)`: only the
fields present in the payload are validated. -/
def userSchemaLoadForUpdate (p : UserPayload) :
    Except (List (String × String)) UserPayload :=
  if p.name.all userNameOk && p.address.all userAddressOk && p.email.all emailOk then .ok p
  else .error (userUpdateErrors p)

/-- Field→message error map for a full (create) load of `ProductSchema`. -/
def productCreateErrors (p : ProductPayload) : List (String × String) :=
  (match p.name with
   | none => [("name", requiredMsg)]
   | some n => if productNameOk n then [] else [("name", "Length must be between 1 and 120.")]) ++
  (match p.price with
   | none => [("price", requiredMsg)]
   | some x => if priceOk x then [] else [("price", "Must be greater than or equal to 0.01.")])

/-- Full load `product_schema.load(request.json)`: both fields required
and validated. -/
def productSchemaLoad (p : ProductPayload) :
    Except (List (String × String)) ProductFields :=
  match p.name, p.price with
  | some n, some x =>
    if productNameOk n && priceOk x then .ok ⟨n, x⟩
    else .error (productCreateErrors p)
  | _, _ => .error (productCreateErrors p)

/-- Field→message error map for a `load(..., partial=True)` of
`ProductSchema`. -/
def productUpdateErrors (p : ProductPayload) : List (String × String) :=
  (match p.name with
   | none => []
   | some n => if productNameOk n then [] else [("name", "Length must be between 1 and 120.")]) ++
  (match p.price with
   | none => []
   | some x => if priceOk x then [] else [("price", "Must be greater than or equal to 0.01.")])

/-- Subset load `product_schema.load(request.json, partial=True)`. -/
def productSchemaLoadForUpdate (p : ProductPayload) :
    Except (List (String × String)) ProductPayload :=
  if p.name.all productNameOk && p.price.all priceOk then .ok p
  else .error (productUpdateErrors p)

/-- Whether a load succeeded (marshmallow raised no `ValidationError`). -/
def isOkE {ε α : Type _} : Except ε α → Bool
  | .ok _ => true
  | .error _ => false

/-! ### Entity layer / data store -/

/-- Lookup `db.session.get(User, id)`. -/
def findUser (db : DB) (id : Nat) : Option User :=
  db.users.find? fun u => decide (u.id = id)

/-- Lookup `db.session.get(Product, id)`. -/
def findProduct (db : DB) (id : Nat) : Option Product :=
  db.products.find? fun pr => decide (pr.id = id)

/-! ### Request handlers (user resource) -/

/-- Handler for `GET /users` (`get_users`). -/
def get_users (db : DB) : Response × DB :=
  (⟨200, Body.users db.users⟩, db)

/-- Handler for `GET /users/<int:id>` (`get_user`). -/
def get_user (db : DB) (id : Nat) : Response × DB :=
  match findUser db id with
  | none => (⟨404, Body.message "User not found"⟩, db)
  | some u => (⟨200, Body.user u⟩, db)

/-- Handler for `POST /users` (`create_user`).  A failed validation
answers 400.  A successful `user_schema.load` returns a `User` model
instance (`load_instance = True`); the very next expression
`user_data['name']` subscripts that instance and raises `TypeError`,
which neither `except` clause catches, so Flask answers 500 and the store
is untouched.  The `db.session.add`/`commit`, the 201 response and the
`IntegrityError` → 409 branch further down are dynamically dead. -/
def create_user (db : DB) (p : UserPayload) : Response × DB :=
  match userSchemaLoad p with
  | .error errs => (⟨400, Body.errors errs⟩, db)
  | .ok _ => (⟨500, Body.message "Internal Server Error"⟩, db)

/-- Handler for `PUT /users/<int:id>` (`update_user`).  A missing id
answers 404 before any load; a failed subset validation answers 400.  On
a successful load the handler evaluates `'name' in user_data`, and since
`user_data` is a `User` instance this raises an uncaught `TypeError`:
Flask answers 500 and the row is never modified.  The field assignments,
`commit` and 200 response below are dynamically dead. -/
def update_user (db : DB) (id : Nat) (p : UserPayload) : Response × DB :=
  match findUser db id with
  | none => (⟨404, Body.message "Invalid user id"⟩, db)
  | some _ =>
    match userSchemaLoadForUpdate p with
    | .error errs => (⟨400, Body.errors errs⟩, db)
    | .ok _ => (⟨500, Body.message "Internal Server Error"⟩, db)

/-- Handler for `DELETE /users/<int:id>` (`delete_user`); it never calls
`schema.load`, so it is modelled exactly as written. -/
def delete_user (db : DB) (id : Nat) : Response × DB :=
  match findUser db id with
  | none => (⟨404, Body.message "User not found"⟩, db)
  | some _ =>
    (⟨200, Body.message ("Successfully deleted user " ++ toString id)⟩,
     { db with users := db.users.filter fun v => decide (v.id ≠ id) })

/-! ### Request handlers (product resource) -/

/-- Handler for `GET /products` (`get_products`). -/
def get_products (db : DB) : Response × DB :=
  (⟨200, Body.products db.products⟩, db)

/-- Handler for `GET /products/<int:id>` (`get_product`). -/
def get_product (db : DB) (id : Nat) : Response × DB :=
  match findProduct db id with
  | none => (⟨404, Body.message "Product not found"⟩, db)
  | some pr => (⟨200, Body.product pr⟩, db)

/-- Handler for `POST /products` (`create_product`).  Same shape as
`create_user`: 400 on failed validation, otherwise `product_data['name']`
subscripts the loaded `Product` instance and raises an uncaught
`TypeError` → 500; the 201 response and the (also statically dead, since
`products` declares no unique constraint) `IntegrityError` → 409 branch
are never reached. -/
def create_product (db : DB) (p : ProductPayload) : Response × DB :=
  match productSchemaLoad p with
  | .error errs => (⟨400, Body.errors errs⟩, db)
  | .ok _ => (⟨500, Body.message "Internal Server Error"⟩, db)

/-- Handler for `PUT /products/<int:id>` (`update_product`).  Same shape
as `update_user`: 404 before the load, 400 on failed subset validation,
otherwise `'name' in product_data` raises an uncaught `TypeError` → 500;
the 200 branch is dynamically dead. -/
def update_product (db : DB) (id : Nat) (p : ProductPayload) : Response × DB :=
  match findProduct db id with
  | none => (⟨404, Body.message "Invalid product id"⟩, db)
  | some _ =>
    match productSchemaLoadForUpdate p with
    | .error errs => (⟨400, Body.errors errs⟩, db)
    | .ok _ => (⟨500, Body.message "Internal Server Error"⟩, db)

/-- Handler for `DELETE /products/<int:id>` (`delete_product`). -/
def delete_product (db : DB) (id : Nat) : Response × DB :=
  match findProduct db id with
  | none => (⟨404, Body.message "Product not found"⟩, db)
  | some _ =>
    (⟨200, Body.message ("Successfully deleted product " ++ toString id)⟩,
     { db with products := db.products.filter fun v => decide (v.id ≠ id) })

/-! ### Concrete request data and store states used to exercise the
handlers.  The API itself can no longer populate the store (every
validation-passing POST answers 500 before its INSERT), so the populated
states below are literals: rows the SQLite file could hold from an
external writer or an earlier version of the program. -/

/-- A validation-passing user creation payload. -/
def aliceP : UserPayload := ⟨some "alice", some "1 Main St", some "alice@mail.com"⟩

/-- An update payload carrying only a (valid) address. -/
def addrOnlyP : UserPayload := ⟨none, some "9 Oak Ave", none⟩

/-- A validation-passing product creation payload. -/
def widgetP : ProductPayload := ⟨some "widget", some (mkRat 5 1)⟩

/-- A store holding one user row with the same name and email as
`aliceP`. -/
def dbA : DB := ⟨[⟨1, "alice", "1 Main St", "alice@mail.com"⟩], []⟩

/-- A store holding one product row with the same name as `widgetP`. -/
def dbP1 : DB := ⟨[], [⟨1, "widget", mkRat 5 1⟩]⟩

example : emailOk "alice@mail.com" = true := by decide
example : emailOk "not-an-email" = false := by decide
example : pennyRat = 1 / 100 := by norm_num [pennyRat]
example : priceOk (mkRat 1 100) = true := by decide
example : priceOk 0 = false := by decide

/-! ### Basic lemmas about the embedding -/

theorem productSchemaLoad_ok {p : ProductPayload} {f : ProductFields}
    (h : productSchemaLoad p = .ok f) :
    p.name = some f.name ∧ p.price = some f.price ∧
    productNameOk f.name = true ∧ pennyRat ≤ f.price := by
  unfold productSchemaLoad at h
  cases hn : p.name with
  | none => simp [hn] at h
  | some n =>
    cases hx : p.price with
    | none => simp [hn, hx] at h
    | some x =>
      simp only [hn, hx] at h
      split at h
      · cases h
        rename_i hv
        simp only [Bool.and_eq_true] at hv
        refine ⟨rfl, rfl, hv.1, ?_⟩
        have := hv.2
        unfold priceOk at this
        exact of_decide_eq_true this
      · cases h

/-! ### Claims -/

/-- C1: the claim asserts that every validation-passing POST /users
answers 201 with a fresh positive id.  In the program
`user_data['name']` raises an uncaught `TypeError` first, so every such
POST answers 500 and creates nothing; the only outcomes of `create_user`
are 400 (validation) and 500, always with the store unchanged. -/
theorem create_user_valid_answers_500 :
    (∀ (db : DB) (p : UserPayload),
      (create_user db p).1.status = 400 ∨ (create_user db p).1.status = 500) ∧
    (∀ (db : DB) (p : UserPayload), (create_user db p).2 = db) ∧
    isOkE (userSchemaLoad aliceP) = true ∧
    (create_user DB.empty aliceP).1.status = 500 := by
  refine ⟨?_, ?_, by decide, by decide⟩
  · intro db p
    unfold create_user
    split
    · exact Or.inl rfl
    · exact Or.inr rfl
  · intro db p
    unfold create_user
    split <;> rfl

/-- C2: the round-trip presupposes POST /users answering 201 with a
created user's id, but the program never produces a 201 response with a
user body (every validation-passing payload draws the uncaught
`TypeError` → 500), so the round-trip's first leg does not exist. -/
theorem create_user_never_201 :
    (∀ (db : DB) (p : UserPayload) (u : User) (db' : DB),
      create_user db p ≠ (⟨201, Body.user u⟩, db')) ∧
    isOkE (userSchemaLoad aliceP) = true ∧
    (create_user DB.empty aliceP).1.status = 500 := by
  refine ⟨?_, by decide, by decide⟩
  intro db p u db' heq
  unfold create_user at heq
  split at heq <;> simp at heq

/-- C3: the claim asserts a validation-passing duplicate POST /users
answers 409 with a rollback.  In the program the `TypeError` fires before
any INSERT can conflict: the duplicate POST answers 500, and the
`IntegrityError` → 409 branch can never run. -/
theorem create_user_duplicate_answers_500 :
    (∃ u ∈ dbA.users, u.name = "alice" ∧ u.email = "alice@mail.com") ∧
    isOkE (userSchemaLoad aliceP) = true ∧
    create_user dbA aliceP = (⟨500, Body.message "Internal Server Error"⟩, dbA) ∧
    (∀ (db : DB) (p : UserPayload), (create_user db p).1.status ≠ 409) := by
  refine ⟨by decide, by decide, by decide, ?_⟩
  intro db p
  unfold create_user
  split <;> simp

/-- C4: the claim asserts an address-only PUT on an existing user answers
200 with the address updated.  In the program `'name' in user_data`
raises an uncaught `TypeError` on that very request: it answers 500 and
leaves the user unchanged. -/
theorem update_user_valid_answers_500 :
    findUser dbA 1 = some ⟨1, "alice", "1 Main St", "alice@mail.com"⟩ ∧
    isOkE (userSchemaLoadForUpdate addrOnlyP) = true ∧
    update_user dbA 1 addrOnlyP =
      (⟨500, Body.message "Internal Server Error"⟩, dbA) := by
  decide

/-- C5: POST /products with price 0 is genuinely rejected with 400 and no
state change (the `ValidationError` is raised inside `load`, before the
instance is built), but the claim's success half fails: the
otherwise-valid payload with price 0.01 — like every validation-passing
product payload — answers 500, not 201, because `product_data['name']`
raises an uncaught `TypeError`. -/
theorem product_price_zero_400_and_penny_500 :
    (∀ (db : DB) (p : ProductPayload), p.price = some 0 →
      (create_product db p).1.status = 400 ∧ (create_product db p).2 = db) ∧
    isOkE (productSchemaLoad ⟨some "widget", some (mkRat 1 100)⟩) = true ∧
    (create_product DB.empty ⟨some "widget", some (mkRat 1 100)⟩).1.status = 500 := by
  refine ⟨?_, by decide, by decide⟩
  intro db p hz
  cases hload : productSchemaLoad p with
  | error errs =>
    constructor
    · unfold create_product
      rw [hload]
    · unfold create_product
      rw [hload]
  | ok f =>
    exfalso
    obtain ⟨-, hxp, -, hprice⟩ := productSchemaLoad_ok hload
    rw [hz] at hxp
    injection hxp with hx
    rw [← hx] at hprice
    exact absurd hprice (by decide)

/-- C7: the claimed status set {200, 400, 404} for PUT /users/{id} is
wrong and its no-409 half right: the handler answers 400, 404, or 500 —
the 500 (an uncaught `TypeError`) on every validated update of an
existing id, collision or not — and never 200 and never 409. -/
theorem update_user_statuses :
    (∀ (db : DB) (id : Nat) (p : UserPayload),
      (update_user db id p).1.status = 400 ∨ (update_user db id p).1.status = 404 ∨
      (update_user db id p).1.status = 500) ∧
    (∀ (db : DB) (id : Nat) (p : UserPayload),
      (update_user db id p).1.status ≠ 200 ∧ (update_user db id p).1.status ≠ 409) ∧
    (update_user dbA 1 addrOnlyP).1.status = 500 := by
  refine ⟨?_, ?_, by decide⟩
  · intro db id p
    unfold update_user
    split
    · simp
    · split <;> simp
  · intro db id p
    unfold update_user
    split
    · simp
    · split <;> simp

/-- C8: for every id with no matching stored user, GET /users/{id} returns
status 404 with body exactly the message "User not found", and the store is
unchanged. -/
theorem get_user_missing_404 (db : DB) (id : Nat) (h : findUser db id = none) :
    get_user db id = (⟨404, Body.message "User not found"⟩, db) := by
  unfold get_user
  rw [h]

/-- Witness for C8 at the fresh database and id 1. -/
theorem get_user_missing_404_witness :
    get_user DB.empty 1 = (⟨404, Body.message "User not found"⟩, DB.empty) :=
  get_user_missing_404 DB.empty 1 rfl

/-- C9: the store indeed never rejects a duplicate product name — the 409
branch is unreachable — but the claimed 201 creating a second product is
equally unreachable: every validation-passing POST /products answers 500
(the uncaught `TypeError` at `product_data['name']`) and creates
nothing. -/
theorem create_product_duplicate_answers_500 :
    (∃ pr ∈ dbP1.products, pr.name = "widget") ∧
    isOkE (productSchemaLoad widgetP) = true ∧
    create_product dbP1 widgetP =
      (⟨500, Body.message "Internal Server Error"⟩, dbP1) ∧
    (∀ (db : DB) (q : ProductPayload),
      (create_product db q).1.status ≠ 409 ∧ (create_product db q).1.status ≠ 201) := by
  refine ⟨by decide, by decide, by decide, ?_⟩
  intro db q
  unfold create_product
  split <;> simp

/-- C10: for an id with no matching row, PUT answers 404 with message
"Invalid user id" / "Invalid product id", while GET and DELETE answer 404
with the differently worded "User not found" / "Product not found". -/
theorem put_missing_id_message_wording (db : DB) (uid pid : Nat)
    (hu : findUser db uid = none) (hp : findProduct db pid = none) :
    (∀ p, update_user db uid p = (⟨404, Body.message "Invalid user id"⟩, db)) ∧
    (∀ q, update_product db pid q = (⟨404, Body.message "Invalid product id"⟩, db)) ∧
    get_user db uid = (⟨404, Body.message "User not found"⟩, db) ∧
    delete_user db uid = (⟨404, Body.message "User not found"⟩, db) ∧
    get_product db pid = (⟨404, Body.message "Product not found"⟩, db) ∧
    delete_product db pid = (⟨404, Body.message "Product not found"⟩, db) ∧
    "Invalid user id" ≠ "User not found" ∧
    "Invalid product id" ≠ "Product not found" := by
  refine ⟨?_, ?_, ?_, ?_, ?_, ?_, by decide, by decide⟩
  · intro p
    unfold update_user
    rw [hu]
  · intro q
    unfold update_product
    rw [hp]
  · unfold get_user
    rw [hu]
  · unfold delete_user
    rw [hu]
  · unfold get_product
    rw [hp]
  · unfold delete_product
    rw [hp]

/-- Witness for C10 at the fresh database and id 1 for both resources. -/
theorem put_missing_id_message_wording_witness :
    update_user DB.empty 1 ⟨none, none, none⟩ =
      (⟨404, Body.message "Invalid user id"⟩, DB.empty) ∧
    update_product DB.empty 1 ⟨none, none⟩ =
      (⟨404, Body.message "Invalid product id"⟩, DB.empty) :=
  ⟨(put_missing_id_message_wording DB.empty 1 1 rfl rfl).1 _,
   (put_missing_id_message_wording DB.empty 1 1 rfl rfl).2.1 _⟩

end ECom
